import Mathlib

/-!
Verification development for the degiroapi client library.

The repository contains two near-duplicate implementations of the same
HTTP client (here called variant 0, the one with response validation via
a status-checking helper, and variant 1, the one with raw logging and
looser validation), plus a small utils module.  Every operation is a
request/response mapping; we embed each operation as a pure function from
the relevant state and the vendor responses it consumes to its result,
mirroring the JavaScript statement by statement.  JavaScript values that
flow through the code are modelled by the `JVal` type; JavaScript runtime
failures (TypeError on member access of undefined/null, ReferenceError on
an unbound identifier, thrown Error objects) are modelled by the `Err`
type carried in `Except`.
-/

namespace Degiro

/-- Model of a JavaScript/JSON value as it flows through the client.
Numbers are modelled as rationals (the JSON numerals the claims exercise
are integers). -/
inductive JVal where
  | undefined
  | null
  | bool (b : Bool)
  | num (q : ℚ)
  | str (s : String)
  | arr (elems : List JVal)
  | obj (fields : List (String × JVal))

/-- Renders a rational the way JavaScript string-interpolates a number.
Exact for integral values, which are the only numerals the claims ever
interpolate; non-integral numerals are rendered num/den. -/
def qToJsStr (q : ℚ) : String :=
  if q.den = 1 then toString q.num else toString q.num ++ "/" ++ toString q.den

mutual

/-- JavaScript ToString coercion, as used by template literals and
property-key coercion.  Object rendering follows Object.prototype.toString;
array rendering joins elements with commas, with null/undefined elements
rendered empty, following Array.prototype.toString. -/
def jsToStr : JVal → String
  | .undefined => "undefined"
  | .null => "null"
  | .bool b => if b then "true" else "false"
  | .num q => qToJsStr q
  | .str s => s
  | .arr xs => jsToStrElems xs
  | .obj _ => "[object Object]"

/-- Array element rendering for `jsToStr` (join with ","). -/
def jsToStrElems : List JVal → String
  | [] => ""
  | [x] => match x with
      | .undefined => ""
      | .null => ""
      | x => jsToStr x
  | x :: xs =>
      (match x with
        | .undefined => ""
        | .null => ""
        | x => jsToStr x) ++ "," ++ jsToStrElems xs

end

/-- JavaScript truthiness. -/
def truthy : JVal → Bool
  | .undefined => false
  | .null => false
  | .bool b => b
  | .num q => q != 0
  | .str s => s ≠ ""
  | .arr _ => true
  | .obj _ => true

/-- Loose equality `v == s` against a string literal.  Only a string
operand can compare loosely equal to the non-numeric string literals the
code uses ("h", "a_req", "un", "us", "date", "success"); every other
operand coerces to a number or NaN on one side only.  (Object-to-primitive
corner cases cannot arise from the JSON payloads compared here.) -/
def jsEqStr (v : JVal) (s : String) : Bool :=
  match v with
  | .str t => t = s
  | _ => false

/-- Strict equality `v === n` against an integer literal (used by the
variant-1 status check `res.status !== 0`). -/
def jsStrictEqNum (v : JVal) (n : ℚ) : Bool :=
  match v with
  | .num q => q = n
  | _ => false

/-- `s.includes(c)` for a one-character needle (the separators ":" and
"/" the code tests for).  The claims only carry ASCII text, where
character containment coincides with JavaScript substring containment. -/
def strContains (s : String) (c : Char) : Bool :=
  s.data.contains c

/-- Accumulating worker for `splitOnChar`. -/
def splitOnCharAux (c : Char) : List Char → List Char → List String
  | [], acc => [String.mk acc.reverse]
  | x :: xs, acc =>
      if x = c then String.mk acc.reverse :: splitOnCharAux c xs []
      else splitOnCharAux c xs (x :: acc)

/-- `s.split(c)` for a one-character separator: every occurrence splits,
adjacent separators produce empty pieces, as in JavaScript. -/
def splitOnChar (s : String) (c : Char) : List String :=
  splitOnCharAux c s.data []

/-- `s.startsWith(p)`. -/
def strStartsWith (s p : String) : Bool :=
  p.data.isPrefixOf s.data

/-- `s.slice(n)` (drop the first n characters; past-the-end yields ""). -/
def strDrop (s : String) (n : Nat) : String :=
  String.mk (s.data.drop n)

/-- `s.length` (character count; equals the JavaScript UTF-16 length on
the ASCII text the claims carry). -/
def strLength (s : String) : Nat :=
  s.data.length

/-- Digit-string accumulator for `jsToNumber`. -/
def digitsToNat : Nat → List Char → Nat
  | acc, [] => acc
  | acc, c :: cs => digitsToNat (acc * 10 + (c.toNat - '0'.toNat)) cs

/-- JavaScript ToNumber of a string, restricted to the shapes the claims
exercise: the empty string is 0, a digit string is its value, anything
else is NaN (`none`).  (Whitespace trimming, signs, decimal points and
exponents are not exercised by any claim.) -/
def jsToNumber (s : String) : Option Int :=
  match s.data with
  | [] => some 0
  | cs => if cs.all Char.isDigit then some (digitsToNat 0 cs) else none

/-- Loose equality `v == n` against an integer literal (used by the
variant-1 delete-order handler `res.status == 0`). -/
def jsEqNum (v : JVal) (n : Int) : Bool :=
  match v with
  | .num q => q = (n : ℚ)
  | .str s => jsToNumber s = some n
  | .bool b => (if b then (1 : Int) else 0) = n
  | _ => false

/-- Failure modes surfaced by the client, each constructor modelling one
`throw` site (or JavaScript runtime error) in the source.  Errors that
the source builds by concatenating a stringified payload into the message
carry that payload structurally. -/
inductive Err where
  /-- Error(res.status + " - " + res.statusText) from the variant-0 status helper. -/
  | httpError (status : Nat) (statusText : String)
  /-- Error(json.errors[0].text) from the variant-0 status helper. -/
  | vendorError (text : JVal)
  /-- Error("Bad result: " + JSON.stringify(data)) from the reshaping fetchers. -/
  | badResult (payload : JVal)
  /-- Error("Tried 3 times to get data, but nothing was returned: " + JSON.stringify(res))
  from the quote poller; carries the last raw poll payload. -/
  | timeout (lastPayload : JVal)
  /-- Error("login nok") when no JSESSIONID cookie value is present. -/
  | loginNok
  /-- Error("Unexpected date format: " + orderRow.value) from order-date parsing. -/
  | parseError (value : String)
  /-- Error(res.message) from the variant-1 status helper. -/
  | statusError (message : JVal)
  /-- Error("delete order failed") from the variant-1 delete-order handler. -/
  | deleteFailed
  /-- JavaScript TypeError raised by member access on undefined/null or by
  calling a method that does not exist; carries the offending key/method. -/
  | typeError (key : String)
  /-- JavaScript ReferenceError on an unbound identifier. -/
  | referenceError (name : String)
  /-- The promise chain is still awaiting a vendor response that the supplied
  response sequence does not contain (the call neither resolves nor rejects). -/
  | noResponse

/-- Association-list lookup used for object fields and cookie lists. -/
def getAssoc {α : Type} : List (String × α) → String → Option α
  | [], _ => none
  | p :: rest, k => if p.1 = k then some p.2 else getAssoc rest k

/-- Association-list assignment with JavaScript object semantics: an
existing key keeps its position and gets the new value, a new key is
appended. -/
def setAssoc {α : Type} : List (String × α) → String → α → List (String × α)
  | [], k, v => [(k, v)]
  | p :: rest, k, v => if p.1 = k then (k, v) :: rest else p :: setAssoc rest k v

/-- Member access `v.k`.  Undefined and null receivers throw a TypeError
(carrying the accessed key); objects look the key up (JSON.parse output
has unique keys, which `setAssoc` preserves); arrays expose `length`;
other primitives yield undefined for the keys the code reads. -/
def jsGet (v : JVal) (k : String) : Except Err JVal :=
  match v with
  | .undefined => .error (.typeError k)
  | .null => .error (.typeError k)
  | .obj fs => .ok ((getAssoc fs k).getD .undefined)
  | .arr xs => .ok (if k = "length" then .num xs.length else .undefined)
  | _ => .ok .undefined

/-- Index access `v[i]`.  Undefined and null receivers throw a TypeError;
arrays index positionally; objects look up the stringified index; string
indexing yields the character; other primitives yield undefined. -/
def jsIndex (v : JVal) (i : Nat) : Except Err JVal :=
  match v with
  | .undefined => .error (.typeError (toString i))
  | .null => .error (.typeError (toString i))
  | .arr xs => .ok (xs.getD i .undefined)
  | .obj fs => .ok ((getAssoc fs (toString i)).getD .undefined)
  | .str s => .ok (match s.data.get? i with
      | some c => .str (String.mk [c])
      | none => .undefined)
  | _ => .ok .undefined

/-- The `k in v` operator: membership among object keys; throws a
TypeError on primitive operands.  (For arrays the only key tested by the
code is "errors", which is never an array index property.) -/
def jsIn (k : String) (v : JVal) : Except Err Bool :=
  match v with
  | .obj fs => .ok ((getAssoc fs k).isSome)
  | .arr _ => .ok false
  | _ => .error (.typeError k)

/-- An HTTP response as consumed by the client: the transport status line
(`ok` is `res.ok`, i.e. a 2xx status), the JSON-parsed body (`res.json()`),
and the cookies parsed from the set-cookie header (`parseCookies`). -/
structure HResp where
  ok : Bool := true
  status : Nat := 200
  statusText : String := "OK"
  body : JVal := .null
  cookies : List (String × String) := []

/-- Variant-0 `checkSuccess(res, json, operation)`: on a non-ok response,
throw the first vendor error text when the body has an `errors` key, and
a bare status/reason error otherwise; on an ok response return the body.
(`json.errors[0].text` is evaluated exactly as written, so an `errors`
key holding something without a first element with a `text` field raises
a TypeError.) -/
def checkSuccess (res : HResp) : Except Err JVal :=
  if res.ok then .ok res.body
  else
    match jsIn "errors" res.body with
    | .error e => .error e
    | .ok true =>
        match jsGet res.body "errors" with
        | .error e => .error e
        | .ok errs =>
            match jsIndex errs 0 with
            | .error e => .error e
            | .ok e0 =>
                match jsGet e0 "text" with
                | .error e => .error e
                | .ok t => .error (.vendorError t)
    | .ok false => .error (.httpError res.status res.statusText)

/-- Variant-1 `checkSuccess(res)`: `res` here is the parsed JSON body;
throws Error(res.message) unless `res.status !== 0` is false.  Member
access on an undefined/null `res` raises a TypeError. -/
def checkSuccess1 (res : JVal) : Except Err JVal :=
  match jsGet res "status" with
  | .error e => .error e
  | .ok s =>
      if jsStrictEqNum s 0 then .ok res
      else
        match jsGet res "message" with
        | .error e => .error e
        | .ok m => .error (.statusError m)

/-- The mutable session record created by `create`. -/
structure Session where
  id : JVal
  account : JVal
  userToken : JVal
  clientInfo : JVal
  /-- Variant 0 additionally stores the raw client-info blob under `session.data`. -/
  data : JVal

/-- The mutable routing-URL record fetched once per session. -/
structure Urls where
  paUrl : JVal
  productSearchUrl : JVal
  productTypesUrl : JVal
  reportingUrl : JVal
  tradingUrl : JVal
  vwdQuotecastServiceUrl : JVal

/-- The shared mutable state of one client instance. -/
structure St where
  session : Session
  urls : Urls

/-- An HTTP request issued by an operation (method and full URL), used to
trace which endpoints the order pipeline hits. -/
structure Req where
  method : String
  url : String

/-- `Array.prototype.map` / `forEach` with a callback that can throw:
aborts at the first failure. -/
def mapExcept {α β : Type} (f : α → Except Err β) : List α → Except Err (List β)
  | [] => .ok []
  | x :: xs =>
      match f x with
      | .error e => .error e
      | .ok y =>
          match mapExcept f xs with
          | .error e => .error e
          | .ok ys => .ok (y :: ys)

/-- A left fold whose step can throw, used for row-processing loops. -/
def foldlExcept {σ α : Type} (f : σ → α → Except Err σ) : σ → List α → Except Err σ
  | s, [] => .ok s
  | s, x :: xs =>
      match f s x with
      | .error e => .error e
      | .ok s' => foldlExcept f s' xs

/-- utils.js `lcFirst`: first character lower-cased, rest unchanged
(`str.charAt(0).toLowerCase() + str.slice(1)`; empty input yields empty). -/
def lcFirst (s : String) : String :=
  match s.data with
  | [] => ""
  | c :: cs => String.mk (c.toLower :: cs)

/-- lodash `omit(obj, keys)`: the object without the listed keys. -/
def omitKeys (fields : List (String × JVal)) (ks : List String) : List (String × JVal) :=
  fields.filter (fun p => !(ks.contains p.1))

/-- lodash `fromPairs(pairs)`: builds an object by assigning each pair in
order, so a repeated key keeps its first position with its last value. -/
def fromPairs (pairs : List (String × JVal)) : List (String × JVal) :=
  pairs.foldl (fun acc p => setAssoc acc p.1 p.2) []

/-- One element of the inner `value.map(({name, value}) => [name, value])`
of the cash-funds reshape: destructuring throws a TypeError when the
element is undefined/null; the extracted name is coerced to a property
key by `fromPairs` assignment. -/
def cashPair (p : JVal) : Except Err (String × JVal) :=
  match jsGet p "name" with
  | .error e => .error e
  | .ok n =>
      match jsGet p "value" with
      | .error e => .error e
      | .ok v => .ok (jsToStr n, v)

/-- One element of `data.cashFunds.value.map(({value}) => omit(fromPairs(...), [...]))`:
destructure `value`, map it to name/value pairs (a non-array has no `map`
method, a TypeError), build the object and strip `handling`/`currencyCode`. -/
def cashEntry (e : JVal) : Except Err (List (String × JVal)) :=
  match jsGet e "value" with
  | .error er => .error er
  | .ok v =>
      match v with
      | .arr xs =>
          match mapExcept cashPair xs with
          | .error er => .error er
          | .ok pairs => .ok (omitKeys (fromPairs pairs) ["handling", "currencyCode"])
      | _ => .error (.typeError "map")

/-- The value `getCashFunds` resolves to: `{cashFunds: [...]}` with one
stripped object per currency entry. -/
structure CashFunds where
  cashFunds : List (List (String × JVal))

/-- The `.then(data => ...)` body of `getCashFunds`: requires a truthy
`data.cashFunds` whose `value` is an array, otherwise throws
Error("Bad result: " + JSON.stringify(data)); identical in both variants. -/
def reshapeCashFunds (data : JVal) : Except Err CashFunds :=
  match jsGet data "cashFunds" with
  | .error e => .error e
  | .ok cf =>
      if truthy cf then
        match jsGet cf "value" with
        | .error e => .error e
        | .ok v =>
            match v with
            | .arr entries =>
                match mapExcept cashEntry entries with
                | .error e => .error e
                | .ok out => .ok ⟨out⟩
            | _ => .error (.badResult data)
      else .error (.badResult data)

/-- A JavaScript Date in local-time components, month 0-based as returned
by `getMonth()`.  `valid` is false for an Invalid Date (a NaN component was
supplied).  Component-overflow normalization is modelled for the month
argument of the `Date(year, month, day)` constructor (which the code can
reach with a December order) but not for out-of-range day/hour/minute
values, which no claim exercises. -/
structure DateRec where
  valid : Bool
  year : Int
  month : Int
  day : Int
  hours : Int
  minutes : Int
  seconds : Int
  ms : Int
deriving DecidableEq, Repr

/-- The Invalid Date produced when a NaN reaches a Date computation. -/
def invalidDate : DateRec :=
  ⟨false, 0, 0, 0, 0, 0, 0, 0⟩

/-- `new Date(y, m, d)`: a year argument in 0..99 means 1900+y; the month
argument (already coerced to a number, NaN giving an Invalid Date) carries
into the year with floor division; the time components are zero. -/
def jsNewDate (y : Int) (m d : Option Int) : DateRec :=
  match m, d with
  | some m, some d =>
      let base := if 0 ≤ y ∧ y ≤ 99 then 1900 + y else y
      ⟨true, base + m.ediv 12, m.emod 12, d, 0, 0, 0, 0⟩
  | _, _ => invalidDate

/-- The order-date parsing inside `processOrders`, applied to the raw
`orderRow.value`.  A value containing ":" is the current date with hours and
minutes from the split (each coerced by ToNumber; a NaN gives an Invalid
Date), seconds and milliseconds zeroed.  A value containing "/" builds
`new Date(getMonth() < month ? getYear() - 1 : getYear(), month, day)`
where `month`/`day` are the raw split strings: `getYear()` is the full
year minus 1900, `getMonth()` is 0-based while the vendor month is
1-based, and the relational comparison coerces the month string to a
number.  Anything else throws a ParseError.  A non-string value has no
`includes` method (TypeError on numbers and such); an array does have
`includes`/no `split`, so an array containing the separator as an element
fails at `split`, and any other array falls through to the ParseError
with the comma-joined rendering. -/
def parseOrderDateJ (now : DateRec) (v : JVal) : Except Err DateRec :=
  match v with
  | .str s =>
      if strContains s ':' then
        let parts := splitOnChar s ':'
        match jsToNumber (parts.getD 0 ""), jsToNumber (parts.getD 1 "") with
        | some h, some m =>
            .ok { now with hours := h, minutes := m, seconds := 0, ms := 0 }
        | _, _ => .ok invalidDate
      else if strContains s '/' then
        let parts := splitOnChar s '/'
        let monthStr := parts.getD 1 ""
        let decrement : Bool := match jsToNumber monthStr with
          | some m => decide (now.month < m)
          | none => false
        let y := if decrement then (now.year - 1900) - 1 else now.year - 1900
        .ok (jsNewDate y (jsToNumber monthStr) (jsToNumber (parts.getD 0 "")))
      else .error (.parseError s)
  | .arr xs =>
      if xs.any (fun x => jsEqStr x ":") then .error (.typeError "split")
      else if xs.any (fun x => jsEqStr x "/") then .error (.typeError "split")
      else .error (.parseError (jsToStr (.arr xs)))
  | _ => .error (.typeError "includes")

/-- A value stored on a processed order object: either the raw vendor
value or the parsed Date. -/
inductive OVal where
  | js (v : JVal)
  | date (d : DateRec)

/-- One iteration of `order.value.forEach(orderRow => ...)`: a row named
"date" stores the parsed date, any other row stores its raw value under
its (property-key-coerced) name. -/
def processOrderRow (now : DateRec) (o : List (String × OVal)) (row : JVal) :
    Except Err (List (String × OVal)) :=
  match jsGet row "name" with
  | .error e => .error e
  | .ok name =>
      match jsGet row "value" with
      | .error e => .error e
      | .ok value =>
          if jsEqStr name "date" then
            match parseOrderDateJ now value with
            | .error e => .error e
            | .ok d => .ok (setAssoc o (jsToStr name) (.date d))
          else .ok (setAssoc o (jsToStr name) (.js value))

/-- One iteration of `orders.forEach(order => ...)`: starts the object as
`{id: order.id}` and folds the rows; a non-array `order.value` has no
`forEach` (TypeError). -/
def processOrder (now : DateRec) (order : JVal) : Except Err (List (String × OVal)) :=
  match jsGet order "id" with
  | .error e => .error e
  | .ok oid =>
      match jsGet order "value" with
      | .error e => .error e
      | .ok v =>
          match v with
          | .arr rows => foldlExcept (processOrderRow now) [("id", .js oid)] rows
          | _ => .error (.typeError "forEach")

/-- `processOrders(orders)`: maps `processOrder` over the list. -/
def processOrders (now : DateRec) (orders : List JVal) :
    Except Err (List (List (String × OVal))) :=
  mapExcept (processOrder now) orders

/-- The retry test `res.length == 1 && res[0].m == "h"` on an array poll
body: short-circuits on length, then reads `.m` of the first row (which
throws a TypeError when that row is null). -/
def heartbeatOnly (rows : List JVal) : Except Err Bool :=
  if rows.length = 1 then
    match jsGet (rows.headD .undefined) "m" with
    | .error e => .error e
    | .ok m => .ok (jsEqStr m "h")
  else .ok false

/-- One iteration of the quote-stream row loop in `checkData`.  An
"a_req" row whose first value is a string starting with the issue id maps
its second value (coerced to a property key) to the field name obtained
by slicing off the id plus separator and lower-casing the first letter,
and initialises that field to null; a non-string first value has no
`startsWith` (TypeError).  An "un"/"us" row writes its second value under
the field name the key map yields for its first value — an unmapped key
reads as undefined and so writes the literal property "undefined".  Other
rows are ignored. -/
def processRow (issueId : String) (acc : List (String × String) × List (String × JVal))
    (row : JVal) : Except Err (List (String × String) × List (String × JVal)) :=
  match jsGet row "m" with
  | .error e => .error e
  | .ok m =>
      if jsEqStr m "a_req" then
        match jsGet row "v" with
        | .error e => .error e
        | .ok v =>
            match jsIndex v 0 with
            | .error e => .error e
            | .ok v0 =>
                match v0 with
                | .str s =>
                    if strStartsWith s issueId then
                      let key := lcFirst (strDrop s (strLength issueId + 1))
                      match jsIndex v 1 with
                      | .error e => .error e
                      | .ok v1 => .ok (setAssoc acc.1 (jsToStr v1) key,
                                       setAssoc acc.2 key .null)
                    else .ok acc
                | _ => .error (.typeError "startsWith")
      else if jsEqStr m "un" || jsEqStr m "us" then
        match jsGet row "v" with
        | .error e => .error e
        | .ok v =>
            match jsIndex v 0 with
            | .error e => .error e
            | .ok v0 =>
                let name := (getAssoc acc.1 (jsToStr v0)).getD "undefined"
                match jsIndex v 1 with
                | .error e => .error e
                | .ok v1 => .ok (acc.1, setAssoc acc.2 name v1)
      else .ok acc

/-- The data-processing part of `checkData`: fold the rows starting from
an empty key map and an empty prices object, returning the prices. -/
def processRows (issueId : String) (rows : List JVal) :
    Except Err (List (String × JVal)) :=
  match foldlExcept (processRow issueId) ([], []) rows with
  | .error e => .error e
  | .ok acc => .ok acc.2

/-- Variant-0 `getAskBidPrice`, driven by the sequence of vendor response
rounds it consumes: each attempt takes one round holding the
request_session response and the poll response (the response of the
subscription POST is ignored by the code).  The session response passes the status
helper and its `sessionId` is interpolated into the quotecast URLs; the
poll response passes the status helper, must parse to an array
(otherwise Error("Bad result: ...")), and a single heartbeat-only row
retries the whole sequence — consuming the next round, i.e. a fresh
quote-service session — while `timesChecked` (incremented at the top of
`checkData`) is at most 3, failing with the timeout error carrying the
raw payload once it exceeds 3.  A non-heartbeat array is folded into the
prices map.  An exhausted round list means the chain is still awaiting a
response.  (The field-completeness check is commented out in this
variant.) -/
def getAskBidPriceCore (st : St) (issueId : String) :
    List (HResp × HResp) → Nat → Except Err (List (String × JVal))
  | [], _ => .error .noResponse
  | (vwdResp, pollResp) :: rest, timesChecked =>
      match checkSuccess vwdResp with
      | .error e => .error e
      | .ok vwdSession =>
          match jsGet vwdSession "sessionId" with
          | .error e => .error e
          | .ok _sid =>
              match checkSuccess pollResp with
              | .error e => .error e
              | .ok body =>
                  let t := timesChecked + 1
                  match body with
                  | .arr rows =>
                      match heartbeatOnly rows with
                      | .error e => .error e
                      | .ok true =>
                          if t ≤ 3 then getAskBidPriceCore st issueId rest t
                          else .error (.timeout body)
                      | .ok false => processRows issueId rows
                  | _ => .error (.badResult body)

/-- Variant-0 `getAskBidPrice` with the shared state threaded (read for
`session.userToken` in the request_session URL, never written). -/
def getAskBidPrice0 (st : St) (issueId : String) (rounds : List (HResp × HResp))
    (timesChecked : Nat) : St × Except Err (List (String × JVal)) :=
  (st, getAskBidPriceCore st issueId rounds timesChecked)

/-- An order payload as destructured by the order pipeline. -/
structure Order where
  buySell : JVal
  orderType : JVal
  productId : JVal
  size : JVal
  timeType : JVal
  price : JVal
  stopPrice : JVal

/-- Modelled from the spec: the constants module (required as ./constants)
is not part of the provided sources; the time-in-force enumeration has a
day variant used as the `setOrder` default, whose concrete numeric code no
claim observes. -/
def timeTypesDay : JVal := .num 1

/-- The checked-order value `{order, confirmationId}`. -/
structure CheckedOrder where
  order : Order
  confirmationId : JVal

/-- The URL of the checkOrder POST. -/
def checkOrderUrl (st : St) : String :=
  jsToStr st.urls.tradingUrl ++ "v5/checkOrder;jsessionid=" ++ jsToStr st.session.id
    ++ "?intAccount=" ++ jsToStr st.session.account ++ "&sessionId=" ++ jsToStr st.session.id

/-- The URL of the confirmOrder POST: the confirmation id is interpolated
as a path segment. -/
def confirmOrderUrl (st : St) (confirmationId : JVal) : String :=
  jsToStr st.urls.tradingUrl ++ "v5/order/" ++ jsToStr confirmationId ++ ";jsessionid="
    ++ jsToStr st.session.id ++ "?intAccount=" ++ jsToStr st.session.account
    ++ "&sessionId=" ++ jsToStr st.session.id

/-- The URL of the deleteOrder DELETE. -/
def deleteOrderUrl (st : St) (orderId : JVal) : String :=
  jsToStr st.urls.tradingUrl ++ "v5/order/" ++ jsToStr orderId ++ ";jsessionid="
    ++ jsToStr st.session.id ++ "?intAccount=" ++ jsToStr st.session.account
    ++ "&sessionId=" ++ jsToStr st.session.id

/-- Variant-0 `checkOrder(order)`: POST the payload, run the status
helper, and resolve `{order, confirmationId: json.data.confirmationId}`
(a missing `data` object raises a TypeError). -/
def checkOrderCore (st : St) (order : Order) (resp : HResp) :
    List Req × Except Err CheckedOrder :=
  ([⟨"POST", checkOrderUrl st⟩],
   match checkSuccess resp with
   | .error e => .error e
   | .ok json =>
       match jsGet json "data" with
       | .error e => .error e
       | .ok data =>
           match jsGet data "confirmationId" with
           | .error e => .error e
           | .ok cid => .ok ⟨order, cid⟩)

/-- Variant-0 `confirmOrder({order, confirmationId})`: POST to the
confirmation-id-scoped endpoint, run the status helper, resolve
`{orderId: json.data.orderId}`. -/
def confirmOrderCore (st : St) (co : CheckedOrder) (resp : HResp) :
    List Req × Except Err JVal :=
  ([⟨"POST", confirmOrderUrl st co.confirmationId⟩],
   match checkSuccess resp with
   | .error e => .error e
   | .ok json =>
       match jsGet json "data" with
       | .error e => .error e
       | .ok data =>
           match jsGet data "orderId" with
           | .error e => .error e
           | .ok oid => .ok oid)

/-- The destructuring default of `setOrder`: `timeType = TimeTypes.day`
applies exactly when the supplied field is undefined. -/
def effectiveOrder (i : Order) : Order :=
  { i with timeType := match i.timeType with
      | .undefined => timeTypesDay
      | t => t }

/-- Variant-0 `setOrder`: `checkOrder({...}).then(confirmOrder)` — the
unconditional composition.  The request trace accumulates exactly the
requests the two steps issue; a check failure short-circuits before any
confirm request, and a confirm failure adds no further request. -/
def setOrderCore (st : St) (i : Order) (checkResp confirmResp : HResp) :
    List Req × Except Err JVal :=
  let o := effectiveOrder i
  match checkOrderCore st o checkResp with
  | (reqs1, .error e) => (reqs1, .error e)
  | (reqs1, .ok co) =>
      match confirmOrderCore st co confirmResp with
      | (reqs2, r2) => (reqs1 ++ reqs2, r2)

/-- Variant-0 `deleteOrder(orderId)`: a DELETE whose response goes through
the status helper; the parsed body is resolved as-is (no body-level
status/statusText check in this variant). -/
def deleteOrderCore (st : St) (orderId : JVal) (resp : HResp) :
    List Req × Except Err JVal :=
  ([⟨"DELETE", deleteOrderUrl st orderId⟩], checkSuccess resp)

/-- The `.then(res => ...)` handler of variant-1 `deleteOrder` (lines
following the fetch): resolve `true` when `res.status == 0` and
`res.statusText == "success"`, otherwise throw
Error("delete order failed").  In the running code this handler is
unreachable: see `deleteOrder1`. -/
def deleteOrderHandler1 (res : JVal) : Except Err Bool :=
  match jsGet res "status" with
  | .error e => .error e
  | .ok s =>
      match jsGet res "statusText" with
      | .error e => .error e
      | .ok t =>
          if jsEqNum s 0 && jsEqStr t "success" then .ok true
          else .error .deleteFailed

/-- Variant-1 `deleteOrder(orderId)`: the fetch options contain
`body: JSON.stringify(params)`, and `params` is not bound anywhere in the
enclosing scopes, so evaluating the options object raises a
ReferenceError before any request is issued; the response handler never
runs. -/
def deleteOrder1 (st : St) (orderId : JVal) (_resp : HResp) :
    St × Except Err Bool :=
  let _url := deleteOrderUrl st orderId
  (st, .error (.referenceError "params"))

/-- querystring.stringify over an options object (keys in insertion
order; percent-encoding is not observable in any claim and is left as the
identity on the interpolated text). -/
def querystringStringify (options : List (String × JVal)) : String :=
  String.intercalate "&" (options.map (fun p => p.1 ++ "=" ++ jsToStr p.2))

/-- lodash `isNil`: null or undefined. -/
def isNil : JVal → Bool
  | .undefined => true
  | .null => true
  | _ => false

/-- The URL of the generic v5/update GET. -/
def getDataUrl (st : St) (options : List (String × JVal)) : String :=
  jsToStr st.urls.tradingUrl ++ "v5/update/" ++ jsToStr st.session.account
    ++ ";jsessionid=" ++ jsToStr st.session.id ++ "?" ++ querystringStringify options

/-- Variant-0 `getData(options, object)`: one GET whose parsed body goes
through the status helper. -/
def getData0 (st : St) (options : List (String × JVal)) (resp : HResp) :
    St × Except Err JVal :=
  let _url := getDataUrl st options
  (st, checkSuccess resp)

/-- Variant-0 `getCashFunds()`: `getData({cashFunds: 0})` then the
cash-funds reshape. -/
def getCashFunds0 (st : St) (resp : HResp) : St × Except Err CashFunds :=
  (st, match (getData0 st [("cashFunds", .num 0)] resp).2 with
    | .error e => .error e
    | .ok data => reshapeCashFunds data)

/-- The value `getPortfolio` resolves to. -/
structure Portfolio where
  portfolio : List JVal

/-- The `.then(data => ...)` body of `getPortfolio`: requires a truthy
`data.portfolio` whose `value` is an array; identical in both variants. -/
def reshapePortfolio (data : JVal) : Except Err Portfolio :=
  match jsGet data "portfolio" with
  | .error e => .error e
  | .ok p =>
      if truthy p then
        match jsGet p "value" with
        | .error e => .error e
        | .ok v =>
            match v with
            | .arr xs => .ok ⟨xs⟩
            | _ => .error (.badResult data)
      else .error (.badResult data)

/-- Variant-0 `getPortfolio()`. -/
def getPortfolio0 (st : St) (resp : HResp) : St × Except Err Portfolio :=
  (st, match (getData0 st [("portfolio", .num 0)] resp).2 with
    | .error e => .error e
    | .ok data => reshapePortfolio data)

/-- The value `getOrders` resolves to. -/
structure Orders where
  openOrders : List (List (String × OVal))
  cancelledOrders : List (List (String × OVal))
  completedOrders : List (List (String × OVal))

/-- The `.then(data => ...)` body of `getOrders`: the shape condition
checks `orders`, `historicalOrders` and `transactions` (truthy holder with
array `value`) in short-circuit order, then runs `processOrders` on each
list; identical in both variants. -/
def reshapeOrders (now : DateRec) (data : JVal) : Except Err Orders :=
  match jsGet data "orders" with
  | .error e => .error e
  | .ok o =>
      match (if truthy o then jsGet o "value" else .ok .undefined) with
      | .error e => .error e
      | .ok ov =>
          match truthy o, ov with
          | true, .arr olist =>
              match jsGet data "historicalOrders" with
              | .error e => .error e
              | .ok h =>
                  match (if truthy h then jsGet h "value" else .ok .undefined) with
                  | .error e => .error e
                  | .ok hv =>
                      match truthy h, hv with
                      | true, .arr hlist =>
                          match jsGet data "transactions" with
                          | .error e => .error e
                          | .ok t =>
                              match (if truthy t then jsGet t "value" else .ok .undefined) with
                              | .error e => .error e
                              | .ok tv =>
                                  match truthy t, tv with
                                  | true, .arr tlist =>
                                      match processOrders now olist with
                                      | .error e => .error e
                                      | .ok op =>
                                          match processOrders now hlist with
                                          | .error e => .error e
                                          | .ok ca =>
                                              match processOrders now tlist with
                                              | .error e => .error e
                                              | .ok co => .ok ⟨op, ca, co⟩
                                  | _, _ => .error (.badResult data)
                      | _, _ => .error (.badResult data)
          | _, _ => .error (.badResult data)

/-- Variant-0 `getOrders()` (the current date is an input of the date
parsing inside `processOrders`). -/
def getOrders0 (st : St) (now : DateRec) (resp : HResp) : St × Except Err Orders :=
  (st, match (getData0 st [("orders", .num 0), ("historicalOrders", .num 0),
                           ("transactions", .num 0)] resp).2 with
    | .error e => .error e
    | .ok data => reshapeOrders now data)

/-- Variant-0 `getTasks()`: one GET through the status helper. -/
def getTasks0 (st : St) (resp : HResp) : St × Except Err JVal :=
  let _url := jsToStr st.urls.paUrl ++ "clienttasks?intAccount="
    ++ jsToStr st.session.account ++ "&sessionId=" ++ jsToStr st.session.id
  (st, checkSuccess resp)

/-- Variant-0 `getOrdersHistory(fromDate, toDate)`: one GET through the
status helper. -/
def getOrdersHistory0 (st : St) (fromDate toDate : JVal) (resp : HResp) :
    St × Except Err JVal :=
  let _url := jsToStr st.urls.reportingUrl ++ "v4/order-history?intAccount="
    ++ jsToStr st.session.account ++ "&fromDate=" ++ jsToStr fromDate
    ++ "&toDate=" ++ jsToStr toDate ++ "&sessionId=" ++ jsToStr st.session.id
  (st, checkSuccess resp)

/-- Variant-0 `getTransactions(fromDate, toDate, groupByOrder)`: one GET
through the status helper. -/
def getTransactions0 (st : St) (fromDate toDate groupByOrder : JVal) (resp : HResp) :
    St × Except Err JVal :=
  let _url := jsToStr st.urls.reportingUrl ++ "v4/transactions?intAccount="
    ++ jsToStr st.session.account ++ "&fromDate=" ++ jsToStr fromDate
    ++ "&toDate=" ++ jsToStr toDate ++ "&groupTransactionsByOrder=" ++ jsToStr groupByOrder
    ++ "&sessionId=" ++ jsToStr st.session.id
  (st, checkSuccess resp)

/-- Variant-0 `searchProduct(options)`: one GET (with nil-valued options
omitted from the query string) through the status helper. -/
def searchProduct0 (st : St) (options : List (String × JVal)) (resp : HResp) :
    St × Except Err JVal :=
  let params := querystringStringify (options.filter (fun p => !(isNil p.2)))
  let _url := jsToStr st.urls.productSearchUrl ++ "v5/products/lookup?intAccount="
    ++ jsToStr st.session.account ++ "&sessionId=" ++ jsToStr st.session.id
    ++ "&" ++ params
  (st, checkSuccess resp)

/-- `id.toString()`: throws a TypeError on undefined/null, otherwise the
string coercion. -/
def jsToStringMethod (v : JVal) : Except Err String :=
  match v with
  | .undefined => .error (.typeError "toString")
  | .null => .error (.typeError "toString")
  | v => .ok (jsToStr v)

/-- Variant-0 `getProductsByIds(ids)`: a single id is wrapped into an
array, each id is `toString`-ed into the POST body, and the response goes
through the status helper. -/
def getProductsByIds0 (st : St) (ids : List JVal) (resp : HResp) :
    St × Except Err JVal :=
  let _url := jsToStr st.urls.productSearchUrl ++ "v5/products/info?intAccount="
    ++ jsToStr st.session.account ++ "&sessionId=" ++ jsToStr st.session.id
  (st, match mapExcept jsToStringMethod ids with
    | .error e => .error e
    | .ok _body => checkSuccess resp)

/-- Reading the six routing URLs out of a config body: each assignment
evaluates `json.data.<field>`, so an undefined/null `data` raises a
TypeError before any URL is stored, and otherwise all six are stored
(missing fields as undefined); shared by both variants. -/
def updateConfigCore (json : JVal) : Except Err Urls :=
  match jsGet json "data" with
  | .error e => .error e
  | .ok data =>
      match jsGet data "paUrl" with
      | .error e => .error e
      | .ok pa =>
          match jsGet data "productSearchUrl" with
          | .error e => .error e
          | .ok ps =>
              match jsGet data "productTypesUrl" with
              | .error e => .error e
              | .ok pt =>
                  match jsGet data "reportingUrl" with
                  | .error e => .error e
                  | .ok rep =>
                      match jsGet data "tradingUrl" with
                      | .error e => .error e
                      | .ok tr =>
                          match jsGet data "vwdQuotecastServiceUrl" with
                          | .error e => .error e
                          | .ok vwd => .ok ⟨pa, ps, pt, rep, tr, vwd⟩

/-- Variant-0 `updateConfig()`: GET the config, run the status helper,
store the six routing URLs; resolves to undefined. -/
def updateConfig0 (st : St) (resp : HResp) : St × Except Err Unit :=
  match checkSuccess resp with
  | .error e => (st, .error e)
  | .ok json =>
      match updateConfigCore json with
      | .error e => (st, .error e)
      | .ok u => ({ st with urls := u }, .ok ())

/-- Variant-0 `getClientInfo()`: GET, status helper, then store
`data.intAccount` as the account, `data.id` as the user token and the
whole blob under `session.data`; resolves to the blob. -/
def getClientInfo0 (st : St) (resp : HResp) : St × Except Err JVal :=
  match checkSuccess resp with
  | .error e => (st, .error e)
  | .ok json =>
      match jsGet json "data" with
      | .error e => (st, .error e)
      | .ok data =>
          match jsGet data "intAccount" with
          | .error e => (st, .error e)
          | .ok acct =>
              match jsGet data "id" with
              | .error e => (st, .error e)
              | .ok uid =>
                  ({ st with session := { st.session with
                      account := acct, userToken := uid, data := data } },
                   .ok data)

/-- The JSESSIONID value a login response carries, as the code reads it:
`parseCookies(res.headers.get("set-cookie") || "").JSESSIONID`, undefined
when absent. -/
def cookieIdOf (res : HResp) : JVal :=
  match getAssoc res.cookies "JSESSIONID" with
  | some v => .str v
  | none => .undefined

/-- Variant-0 `sendLoginRequest`: store the session cookie value, run the
status helper on the login response (its failure rejects the chain),
throw Error("login nok") when the stored id is falsy, then chain
`updateConfig` and `getClientInfo` and resolve the populated session. -/
def sendLoginRequest0 (st : St) (loginResp configResp clientResp : HResp) :
    St × Except Err Session :=
  let sid := cookieIdOf loginResp
  let st1 := { st with session := { st.session with id := sid } }
  match checkSuccess loginResp with
  | .error e => (st1, .error e)
  | .ok _ =>
      if truthy sid then
        match updateConfig0 st1 configResp with
        | (st2, .error e) => (st2, .error e)
        | (st2, .ok _) =>
            match getClientInfo0 st2 clientResp with
            | (st3, .error e) => (st3, .error e)
            | (st3, .ok _) => (st3, .ok st3.session)
      else (st1, .error .loginNok)

/-- The variant-1 logger used as a `.then` handler: `log(...)` returns
undefined, so the handler drops the parsed body it received. -/
def jsLog : JVal := .undefined

/-- Variant-1 `getData(options)`: fetch, parse, then
`.then(res => log("getData response:", ...))` — the promise resolves to
the return value of the logger, undefined, for every response. -/
def getData1 (st : St) (options : List (String × JVal)) (resp : HResp) :
    St × JVal :=
  let _url := getDataUrl st options
  let _body := resp.body
  (st, jsLog)

/-- Variant-1 `getCashFunds()`: the cash-funds reshape applied to what
variant-1 `getData` resolved. -/
def getCashFunds1 (st : St) (resp : HResp) : St × Except Err CashFunds :=
  (st, reshapeCashFunds (getData1 st [("cashFunds", .num 0)] resp).2)

/-- Variant-1 `getPortfolio()`. -/
def getPortfolio1 (st : St) (resp : HResp) : St × Except Err Portfolio :=
  (st, reshapePortfolio (getData1 st [("portfolio", .num 0)] resp).2)

/-- Variant-1 `getOrders()`. -/
def getOrders1 (st : St) (now : DateRec) (resp : HResp) : St × Except Err Orders :=
  (st, reshapeOrders now (getData1 st [("orders", .num 0), ("historicalOrders", .num 0),
                                       ("transactions", .num 0)] resp).2)

/-- Variant-1 `checkOrder(order)`: the parsed body is dropped by the
logging `.then`, whose undefined result is fed to the variant-1 status
helper, and on success (never reached) `json.confirmationId` would be
read directly off it. -/
def checkOrder1 (st : St) (order : Order) (resp : HResp) :
    St × List Req × Except Err CheckedOrder :=
  let _body := resp.body
  (st, [⟨"POST", checkOrderUrl st⟩],
   match checkSuccess1 jsLog with
   | .error e => .error e
   | .ok json =>
       match jsGet json "confirmationId" with
       | .error e => .error e
       | .ok cid => .ok ⟨order, cid⟩)

/-- Variant-1 `requestVwdSession()`: the parsed body is dropped by the
logging `.then` handler, so the promise resolves the return value of the
logger — undefined — for every response (the same pattern as variant-1
`getData`). -/
def requestVwdSession1 (st : St) (resp : HResp) : St × JVal :=
  let _url := "https://degiro.quotecast.vwdservices.com/CORS/request_session?version=1.0.20170315&userToken="
    ++ jsToStr st.session.userToken
  let _body := resp.body
  (st, jsLog)

/-- Variant-1 `getAskBidPrice`: `requestVwdSession` resolves undefined,
so the `.then(vwdSession => ...)` callback throws a TypeError while
interpolating `vwdSession.sessionId` into the quotecast URL — before the
subscription POST, the poll and `checkData` (with its enforced
completeness check) can run; the call rejects for every response
sequence.  Were the session object ever usable, building the poll chain
would next evaluate `log("getAskBidPrice response:", JSON.stringify(res))`
with the identifier `res` unbound in every enclosing scope, a
ReferenceError. -/
def getAskBidPrice1 (st : St) (issueId : String) :
    List (HResp × HResp) → Nat → St × Except Err (List (String × JVal))
  | [], _ => (st, .error .noResponse)
  | (vwdResp, _pollResp) :: _rest, _timesChecked =>
      let vwdSession := (requestVwdSession1 st vwdResp).2
      let _controlData := "req(" ++ issueId ++ ".BidPrice);req(" ++ issueId
        ++ ".AskPrice);req(" ++ issueId ++ ".LastPrice);req(" ++ issueId ++ ".LastTime);"
      (st, match jsGet vwdSession "sessionId" with
        | .error e => .error e
        | .ok _sid => .error (.referenceError "res"))

/-- Variant-1 `updateConfig()`: no status helper; reads the six routing
URLs straight off the parsed body. -/
def updateConfig1 (st : St) (resp : HResp) : St × Except Err Unit :=
  match updateConfigCore resp.body with
  | .error e => (st, .error e)
  | .ok u => ({ st with urls := u }, .ok ())

/-- Variant-1 `getClientInfo()`: no status helper; stores
`data.intAccount`, `data.id` and the blob under `session.clientInfo`. -/
def getClientInfo1 (st : St) (resp : HResp) : St × Except Err JVal :=
  match jsGet resp.body "data" with
  | .error e => (st, .error e)
  | .ok data =>
      match jsGet data "intAccount" with
      | .error e => (st, .error e)
      | .ok acct =>
          match jsGet data "id" with
          | .error e => (st, .error e)
          | .ok uid =>
              ({ st with session := { st.session with
                  account := acct, userToken := uid, clientInfo := data } },
               .ok data)

/-- Variant-1 `sendLoginRequest`: stores the session cookie value and
throws Error("login nok") when it is falsy — the response status and body
are never inspected — then chains `updateConfig` and `getClientInfo` and
resolves the populated session. -/
def sendLoginRequest1 (st : St) (loginResp configResp clientResp : HResp) :
    St × Except Err Session :=
  let sid := cookieIdOf loginResp
  let st1 := { st with session := { st.session with id := sid } }
  if truthy sid then
    match updateConfig1 st1 configResp with
    | (st2, .error e) => (st2, .error e)
    | (st2, .ok _) =>
        match getClientInfo1 st2 clientResp with
        | (st3, .error e) => (st3, .error e)
        | (st3, .ok _) => (st3, .ok st3.session)
  else (st1, .error .loginNok)

/-- Variant-0 `checkOrder` with the shared state threaded. -/
def checkOrder0 (st : St) (order : Order) (resp : HResp) :
    St × List Req × Except Err CheckedOrder :=
  (st, checkOrderCore st order resp)

/-- Variant-0 `confirmOrder` with the shared state threaded. -/
def confirmOrder0 (st : St) (co : CheckedOrder) (resp : HResp) :
    St × List Req × Except Err JVal :=
  (st, confirmOrderCore st co resp)

/-- Variant-0 `setOrder` with the shared state threaded. -/
def setOrder0 (st : St) (i : Order) (checkResp confirmResp : HResp) :
    St × List Req × Except Err JVal :=
  (st, setOrderCore st i checkResp confirmResp)

/-- Variant-0 `deleteOrder` with the shared state threaded. -/
def deleteOrder0 (st : St) (orderId : JVal) (resp : HResp) :
    St × List Req × Except Err JVal :=
  (st, deleteOrderCore st orderId resp)

/-- A concrete current date used by evaluation theorems:
2026-10-11 10:30:05.250 local time (getMonth() = 9). -/
def sampleNow : DateRec :=
  ⟨true, 2026, 9, 11, 10, 30, 5, 250⟩

/-- A concrete client state used by evaluation theorems: a fresh
`create()` instance before bootstrap. -/
def sampleSt : St :=
  ⟨⟨.null, .null, .null, .null, .null⟩, ⟨.null, .null, .null, .null, .null, .null⟩⟩

/-- A concrete well-shaped config response used by evaluation theorems. -/
def sampleConfigResp : HResp :=
  ⟨true, 200, "OK",
   .obj [("data", .obj [("paUrl", .str "pa/"), ("productSearchUrl", .str "ps/"),
     ("productTypesUrl", .str "pt/"), ("reportingUrl", .str "rep/"),
     ("tradingUrl", .str "tr/"), ("vwdQuotecastServiceUrl", .str "vwd/")])], []⟩

/-- A concrete well-shaped client-info response used by evaluation
theorems (vendor-reported account id 123, user token "tok"). -/
def sampleClientResp : HResp :=
  ⟨true, 200, "OK",
   .obj [("data", .obj [("intAccount", .num 123), ("id", .str "tok")])], []⟩

/-- Discriminates a rejected operation result. -/
def isErr {α : Type} : Except Err α → Bool
  | .error _ => true
  | .ok _ => false

/-- C2: the day/month order-date branch evaluated on the example used
by the spec.  With the current date 2026-10-11, the field "05/03" parses to
year 126, month index 3 and day 5 — i.e. 5 April 126 — because
`getYear()` is the full year minus 1900 and the 1-based vendor month is
passed to the 0-based Date constructor; and the field "11/10" (11
October, the current month, which does not exceed it) parses to year 125,
month index 10, day 11, because the decrement condition compares the
0-based current month with the 1-based vendor month.  The claim expects
5 March 2026 and 11 October 2026 respectively. -/
theorem order_date_slash_bug_eval :
    parseOrderDateJ sampleNow (.str "05/03") = .ok ⟨true, 126, 3, 5, 0, 0, 0, 0⟩
    ∧ parseOrderDateJ sampleNow (.str "11/10") = .ok ⟨true, 125, 10, 11, 0, 0, 0, 0⟩ := by
  constructor <;> rfl

/-- C4: variant-1 `deleteOrder` raises a ReferenceError for the unbound
`params` identifier while building the fetch options, for every order id
and every vendor response — so it never resolves `true`, even though its
(unreachable) response handler does resolve `true` exactly on
`{status: 0, statusText: "success"}` and rejects otherwise; and variant-0
`deleteOrder` resolves the parsed body unchanged for any HTTP-ok
response, without inspecting the status/statusText fields of the body. -/
theorem deleteOrder1_params_reference_error :
    (∀ (st : St) (orderId : JVal) (resp : HResp),
        deleteOrder1 st orderId resp = (st, .error (.referenceError "params")))
    ∧ deleteOrderHandler1 (.obj [("status", .num 0), ("statusText", .str "success")])
        = .ok true
    ∧ deleteOrderHandler1 (.obj [("status", .num 1), ("statusText", .str "success")])
        = .error .deleteFailed
    ∧ deleteOrderHandler1 (.obj [("status", .num 0), ("statusText", .str "nope")])
        = .error .deleteFailed
    ∧ (∀ (st : St) (orderId : JVal) (b : JVal),
        (deleteOrderCore st orderId ⟨true, 200, "OK", b, []⟩).2 = .ok b) := by
  refine ⟨fun _ _ _ => rfl, rfl, rfl, rfl, fun _ _ _ => rfl⟩

/-- C10: in the looser-validation variant, `getData` resolves to the
return value of the logger (undefined) for every response, so the cash-funds,
portfolio and orders reshapes all reject with a TypeError on their first
member access, and `checkOrder` feeds the undefined logger result to
its success check, which rejects with a TypeError reading `.status`. -/
theorem variant1_logger_undefined_results :
    (∀ (st : St) (options : List (String × JVal)) (resp : HResp),
        getData1 st options resp = (st, JVal.undefined))
    ∧ (∀ (st : St) (resp : HResp),
        (getCashFunds1 st resp).2 = .error (.typeError "cashFunds"))
    ∧ (∀ (st : St) (resp : HResp),
        (getPortfolio1 st resp).2 = .error (.typeError "portfolio"))
    ∧ (∀ (st : St) (now : DateRec) (resp : HResp),
        (getOrders1 st now resp).2 = .error (.typeError "orders"))
    ∧ (∀ (st : St) (order : Order) (resp : HResp),
        (checkOrder1 st order resp).2.2 = .error (.typeError "status")) := by
  refine ⟨fun _ _ _ => rfl, fun _ _ => rfl, fun _ _ => rfl,
          fun _ _ _ => rfl, fun _ _ _ => rfl⟩

/-- C9: every operation outside the bootstrap sequence leaves the session
and routing-URL records unchanged: none of these functions writes a
session or URL field, so each returns its input state verbatim. -/
theorem non_bootstrap_ops_preserve_state :
    (∀ (st : St) (options : List (String × JVal)) (resp : HResp),
        (searchProduct0 st options resp).1 = st)
    ∧ (∀ (st : St) (options : List (String × JVal)) (resp : HResp),
        (getData0 st options resp).1 = st)
    ∧ (∀ (st : St) (resp : HResp), (getCashFunds0 st resp).1 = st)
    ∧ (∀ (st : St) (resp : HResp), (getPortfolio0 st resp).1 = st)
    ∧ (∀ (st : St) (issueId : String) (rounds : List (HResp × HResp)) (t : Nat),
        (getAskBidPrice0 st issueId rounds t).1 = st)
    ∧ (∀ (st : St) (order : Order) (resp : HResp), (checkOrder0 st order resp).1 = st)
    ∧ (∀ (st : St) (co : CheckedOrder) (resp : HResp), (confirmOrder0 st co resp).1 = st)
    ∧ (∀ (st : St) (i : Order) (checkResp confirmResp : HResp),
        (setOrder0 st i checkResp confirmResp).1 = st)
    ∧ (∀ (st : St) (orderId : JVal) (resp : HResp), (deleteOrder0 st orderId resp).1 = st)
    ∧ (∀ (st : St) (now : DateRec) (resp : HResp), (getOrders0 st now resp).1 = st)
    ∧ (∀ (st : St) (resp : HResp), (getTasks0 st resp).1 = st)
    ∧ (∀ (st : St) (fromDate toDate : JVal) (resp : HResp),
        (getOrdersHistory0 st fromDate toDate resp).1 = st)
    ∧ (∀ (st : St) (fromDate toDate groupByOrder : JVal) (resp : HResp),
        (getTransactions0 st fromDate toDate groupByOrder resp).1 = st)
    ∧ (∀ (st : St) (ids : List JVal) (resp : HResp),
        (getProductsByIds0 st ids resp).1 = st) := by
  refine ⟨fun _ _ _ => rfl, fun _ _ _ => rfl, fun _ _ => rfl, fun _ _ => rfl,
          fun _ _ _ _ => rfl, fun _ _ _ => rfl, fun _ _ _ => rfl, fun _ _ _ _ => rfl,
          fun _ _ _ => rfl, fun _ _ _ => rfl, fun _ _ => rfl, fun _ _ _ _ => rfl,
          fun _ _ _ _ _ => rfl, fun _ _ _ => rfl⟩

/-- C8: a date field containing ":" parses to the current date (year, month
and day of the current date) with hours and minutes from the two split
components and seconds/milliseconds zero.  The range hypotheses confine
the statement to in-range times, where the component model of the Date
setters is exact (out-of-range values would carry over in JavaScript). -/
theorem order_date_colon_today :
    ∀ (now : DateRec) (s : String) (h m : Int),
      now.valid = true →
      strContains s ':' = true →
      jsToNumber ((splitOnChar s ':').getD 0 "") = some h →
      jsToNumber ((splitOnChar s ':').getD 1 "") = some m →
      0 ≤ h → h ≤ 23 → 0 ≤ m → m ≤ 59 →
      parseOrderDateJ now (.str s) =
        .ok ⟨true, now.year, now.month, now.day, h, m, 0, 0⟩ := by
  intro now s h m hval hc h0 h1 _ _ _ _
  obtain ⟨v, y, mo, d, hh, mm, ss, msv⟩ := now
  simp only at hval
  subst hval
  simp only [parseOrderDateJ, hc, if_true, h0, h1]

/-- C8 witness: "14:30" on the sample current date parses to
2026-10-11 14:30:00.000. -/
theorem order_date_colon_today_witness :
    parseOrderDateJ sampleNow (.str "14:30") = .ok ⟨true, 2026, 9, 11, 14, 30, 0, 0⟩ :=
  order_date_colon_today sampleNow "14:30" 14 30 rfl rfl rfl rfl
    (by decide) (by decide) (by decide) (by decide)

/-- Inversion for `mapExcept`: every element of a successful result comes
from some input element the callback accepted. -/
theorem mem_of_mapExcept {α β : Type} {f : α → Except Err β} :
    ∀ {xs : List α} {ys : List β}, mapExcept f xs = .ok ys →
      ∀ y ∈ ys, ∃ x ∈ xs, f x = .ok y := by
  intro xs
  induction xs with
  | nil =>
      intro ys h y hy
      simp only [mapExcept] at h
      cases h
      simp at hy
  | cons x xs ih =>
      intro ys h y hy
      simp only [mapExcept] at h
      cases hfx : f x with
      | error e => rw [hfx] at h; cases h
      | ok y1 =>
          rw [hfx] at h
          cases hrest : mapExcept f xs with
          | error e => rw [hrest] at h; cases h
          | ok ys1 =>
              rw [hrest] at h
              cases h
              rcases List.mem_cons.mp hy with hy1 | hy2
              · exact ⟨x, List.mem_cons_self x xs, hy1 ▸ hfx⟩
              · rcases ih hrest y hy2 with ⟨x', hx', hfx'⟩
                exact ⟨x', List.mem_cons_of_mem x hx', hfx'⟩

/-- Members of an `omitKeys` result never carry an omitted key. -/
theorem mem_omitKeys {fields : List (String × JVal)} {ks : List String}
    {p : String × JVal} (h : p ∈ omitKeys fields ks) : ks.contains p.1 = false := by
  unfold omitKeys at h
  have := (List.mem_filter.mp h).2
  simpa using this

/-- A successful `cashEntry` result is an `omitKeys` image. -/
theorem cashEntry_no_stripped_keys {e : JVal} {out : List (String × JVal)}
    (h : cashEntry e = .ok out) :
    ∀ p ∈ out, p.1 ≠ "handling" ∧ p.1 ≠ "currencyCode" := by
  intro p hp
  unfold cashEntry at h
  split at h
  · cases h
  · split at h
    · split at h
      · cases h
      · cases h
        have hc := mem_omitKeys hp
        simp only [List.contains, List.elem_cons, List.elem_nil] at hc
        constructor
        · intro hq; rw [hq] at hc; simp at hc
        · intro hq; rw [hq] at hc; simp at hc
    · cases h

/-- C6: every entry of a successful `getCashFunds` result is free of the
`handling` and `currencyCode` keys, whatever the vendor entries held. -/
theorem getCashFunds_strips_handling_currencyCode :
    ∀ (st : St) (resp : HResp) (res : CashFunds),
      (getCashFunds0 st resp).2 = .ok res →
      ∀ e ∈ res.cashFunds, ∀ p ∈ e, p.1 ≠ "handling" ∧ p.1 ≠ "currencyCode" := by
  intro st resp res h e he p hp
  simp only [getCashFunds0, getData0] at h
  split at h
  · cases h
  · unfold reshapeCashFunds at h
    split at h
    · cases h
    · split at h
      · split at h
        · cases h
        · split at h
          · rename_i entries hm
            split at h
            · cases h
            · rename_i out hmap
              cases h
              rcases mem_of_mapExcept hmap e he with ⟨src, _, hsrc⟩
              exact cashEntry_no_stripped_keys hsrc p hp
          · cases h
      · cases h

/-- C6 witness: a vendor entry carrying `handling` and `currencyCode`
rows comes back as an entry with only the remaining key. -/
theorem getCashFunds_strips_witness :
    (getCashFunds0 sampleSt ⟨true, 200, "OK",
        .obj [("cashFunds", .obj [("value", .arr [.obj [("value", .arr [
            .obj [("name", .str "handling"), ("value", .num 1)],
            .obj [("name", .str "currencyCode"), ("value", .num 978)],
            .obj [("name", .str "EUR"), ("value", .num 1000)]])]])])], []⟩).2
      = .ok ⟨[[("EUR", .num 1000)]]⟩
    ∧ (("EUR" : String) ≠ "handling" ∧ ("EUR" : String) ≠ "currencyCode") :=
  ⟨rfl,
   getCashFunds_strips_handling_currencyCode sampleSt
     ⟨true, 200, "OK",
      .obj [("cashFunds", .obj [("value", .arr [.obj [("value", .arr [
          .obj [("name", .str "handling"), ("value", .num 1)],
          .obj [("name", .str "currencyCode"), ("value", .num 978)],
          .obj [("name", .str "EUR"), ("value", .num 1000)]])]])])], []⟩
     ⟨[[("EUR", .num 1000)]]⟩ rfl [("EUR", .num 1000)] (by simp)
     ("EUR", .num 1000) (by simp)⟩

/-- C7: in the quote-stream row loop, an "a_req" row whose first value
starts with the issue id maps its (property-key-coerced) second value to
the field name obtained by slicing off the id and separator and
lower-casing the first letter, initialising that field to null; and an
"un"/"us" row stores its second value under the field name the key map
resolves for its (coerced) first value. -/
theorem quote_row_mapping :
    ∀ (issueId : String) (ks : List (String × String)) (ps : List (String × JVal))
      (s : String) (v0 v1 w : JVal) (m' : String),
      (strStartsWith s issueId = true →
        processRow issueId (ks, ps) (.obj [("m", .str "a_req"), ("v", .arr [.str s, v1])])
          = .ok (setAssoc ks (jsToStr v1) (lcFirst (strDrop s (strLength issueId + 1))),
                 setAssoc ps (lcFirst (strDrop s (strLength issueId + 1))) .null))
      ∧ ((m' = "un" ∨ m' = "us") →
        processRow issueId (ks, ps) (.obj [("m", .str m'), ("v", .arr [v0, w])])
          = .ok (ks, setAssoc ps ((getAssoc ks (jsToStr v0)).getD "undefined") w)) := by
  intro issueId ks ps s v0 v1 w m'
  constructor
  · intro hs
    simp [processRow, jsGet, getAssoc, jsEqStr, jsIndex, hs]
  · rintro (hm | hm) <;> subst hm <;>
      simp [processRow, jsGet, getAssoc, jsEqStr, jsIndex]

/-- C7 witness: with issue id "360", the row
`{m: "a_req", v: ["360.BidPrice", 101]}` maps 101 to "bidPrice" and an
`un` row with key 101 stores its value under "bidPrice". -/
theorem quote_row_mapping_witness :
    processRow "360" ([], []) (.obj [("m", .str "a_req"), ("v", .arr [.str "360.BidPrice", .num 101])])
      = .ok ([("101", "bidPrice")], [("bidPrice", .null)])
    ∧ processRow "360" ([("101", "bidPrice")], [("bidPrice", .null)])
        (.obj [("m", .str "un"), ("v", .arr [.num 101, .num 25])])
      = .ok ([("101", "bidPrice")], [("bidPrice", .num 25)]) :=
  ⟨(quote_row_mapping "360" [] [] "360.BidPrice" .undefined (.num 101) .undefined "un").1 rfl,
   (quote_row_mapping "360" [("101", "bidPrice")] [("bidPrice", .null)] ""
      (.num 101) .undefined (.num 25) "un").2 (Or.inl rfl)⟩

/-- C3: `setOrder` is the unconditional composition of `checkOrder` and
`confirmOrder`: whenever the check response carries a confirmation id,
the issued requests are exactly the checkOrder POST followed by the
confirmOrder POST whose path embeds that very confirmation id, and the
overall result is the result of `confirmOrder` — for every confirm response,
so a failed confirmation leaves exactly those two requests and triggers
no rollback request. -/
theorem setOrder_composes_check_confirm :
    ∀ (st : St) (i : Order) (checkResp confirmResp : HResp) (json data cid : JVal),
      checkSuccess checkResp = .ok json →
      jsGet json "data" = .ok data →
      jsGet data "confirmationId" = .ok cid →
      setOrderCore st i checkResp confirmResp
        = ([⟨"POST", checkOrderUrl st⟩, ⟨"POST", confirmOrderUrl st cid⟩],
           (confirmOrderCore st ⟨effectiveOrder i, cid⟩ confirmResp).2) := by
  intro st i cr kr json data cid h1 h2 h3
  simp [setOrderCore, checkOrderCore, confirmOrderCore, h1, h2, h3]

/-- C3 witness: a confirmation id "abc123" returned by the check step is
embedded verbatim in the confirm POST path. -/
theorem setOrder_composes_check_confirm_witness :
    setOrderCore sampleSt ⟨.undefined, .undefined, .undefined, .undefined, .undefined, .undefined, .undefined⟩
        ⟨true, 200, "OK", .obj [("data", .obj [("confirmationId", .str "abc123")])], []⟩
        ⟨true, 200, "OK", .obj [("data", .obj [("orderId", .str "ord1")])], []⟩
      = ([⟨"POST", checkOrderUrl sampleSt⟩, ⟨"POST", confirmOrderUrl sampleSt (.str "abc123")⟩],
         (confirmOrderCore sampleSt
            ⟨effectiveOrder ⟨.undefined, .undefined, .undefined, .undefined, .undefined, .undefined, .undefined⟩,
             .str "abc123"⟩
            ⟨true, 200, "OK", .obj [("data", .obj [("orderId", .str "ord1")])], []⟩).2) :=
  setOrder_composes_check_confirm sampleSt
    ⟨.undefined, .undefined, .undefined, .undefined, .undefined, .undefined, .undefined⟩
    ⟨true, 200, "OK", .obj [("data", .obj [("confirmationId", .str "abc123")])], []⟩
    ⟨true, 200, "OK", .obj [("data", .obj [("orderId", .str "ord1")])], []⟩
    (.obj [("data", .obj [("confirmationId", .str "abc123")])])
    (.obj [("confirmationId", .str "abc123")]) (.str "abc123") rfl rfl rfl

/-- C1 counterexample: a sequence of exactly three heartbeat-only poll
responses does not produce the timeout error — after the third heartbeat
the code starts a fourth attempt and is left awaiting a response the
sequence does not contain. -/
theorem getAskBidPrice_three_heartbeats_not_timeout :
    getAskBidPriceCore sampleSt "360"
        [(⟨true, 200, "OK", .obj [("sessionId", .str "s1")], []⟩,
          ⟨true, 200, "OK", .arr [.obj [("m", .str "h")]], []⟩),
         (⟨true, 200, "OK", .obj [("sessionId", .str "s2")], []⟩,
          ⟨true, 200, "OK", .arr [.obj [("m", .str "h")]], []⟩),
         (⟨true, 200, "OK", .obj [("sessionId", .str "s3")], []⟩,
          ⟨true, 200, "OK", .arr [.obj [("m", .str "h")]], []⟩)] 0
      = .error .noResponse := rfl

/-- C1 (amended): in the validated variant, heartbeat-only polls on four
consecutive attempts — each attempt starting a fresh quote-service
session — fail with the timeout error carrying the fourth (last) raw
payload, and a heartbeat poll followed by a data-bearing poll succeeds
with the field map of the second response; in the looser-validation
variant, `getAskBidPrice` rejects with a TypeError reading `sessionId`
off the undefined quote-session result on every call, before any poll,
so neither the timeout nor the success behaviour ever occurs there. -/
theorem getAskBidPrice_retry_behaviour :
    (∀ (st : St) (issueId : String) (a1 b1 a2 b2 a3 b3 a4 b4 : HResp)
       (v1 v2 v3 v4 s1 s2 s3 s4 : JVal) (rows1 rows2 rows3 rows4 : List JVal),
      checkSuccess a1 = .ok v1 → jsGet v1 "sessionId" = .ok s1 →
      checkSuccess b1 = .ok (.arr rows1) → heartbeatOnly rows1 = .ok true →
      checkSuccess a2 = .ok v2 → jsGet v2 "sessionId" = .ok s2 →
      checkSuccess b2 = .ok (.arr rows2) → heartbeatOnly rows2 = .ok true →
      checkSuccess a3 = .ok v3 → jsGet v3 "sessionId" = .ok s3 →
      checkSuccess b3 = .ok (.arr rows3) → heartbeatOnly rows3 = .ok true →
      checkSuccess a4 = .ok v4 → jsGet v4 "sessionId" = .ok s4 →
      checkSuccess b4 = .ok (.arr rows4) → heartbeatOnly rows4 = .ok true →
      getAskBidPriceCore st issueId [(a1, b1), (a2, b2), (a3, b3), (a4, b4)] 0
        = .error (.timeout (.arr rows4)))
    ∧ (∀ (st : St) (issueId : String) (a1 b1 a2 b2 : HResp) (v1 v2 s1 s2 : JVal)
         (rows1 rows2 : List JVal) (prices : List (String × JVal)),
      checkSuccess a1 = .ok v1 → jsGet v1 "sessionId" = .ok s1 →
      checkSuccess b1 = .ok (.arr rows1) → heartbeatOnly rows1 = .ok true →
      checkSuccess a2 = .ok v2 → jsGet v2 "sessionId" = .ok s2 →
      checkSuccess b2 = .ok (.arr rows2) → heartbeatOnly rows2 = .ok false →
      processRows issueId rows2 = .ok prices →
      getAskBidPriceCore st issueId [(a1, b1), (a2, b2)] 0 = .ok prices)
    ∧ (∀ (st : St) (issueId : String) (vwdResp pollResp : HResp)
         (rest : List (HResp × HResp)) (timesChecked : Nat),
      (getAskBidPrice1 st issueId ((vwdResp, pollResp) :: rest) timesChecked).2
        = .error (.typeError "sessionId")) := by
  refine ⟨?_, ?_, fun _ _ _ _ _ _ => rfl⟩
  · intro st issueId a1 b1 a2 b2 a3 b3 a4 b4 v1 v2 v3 v4 s1 s2 s3 s4
      rows1 rows2 rows3 rows4 ha1 hs1 hb1 hh1 ha2 hs2 hb2 hh2 ha3 hs3 hb3 hh3
      ha4 hs4 hb4 hh4
    simp [getAskBidPriceCore, ha1, hs1, hb1, hh1, ha2, hs2, hb2, hh2,
          ha3, hs3, hb3, hh3, ha4, hs4, hb4, hh4]
  · intro st issueId a1 b1 a2 b2 v1 v2 s1 s2 rows1 rows2 prices
      ha1 hs1 hb1 hh1 ha2 hs2 hb2 hh2 hpr
    simp [getAskBidPriceCore, ha1, hs1, hb1, hh1, ha2, hs2, hb2, hh2, hpr]

/-- C1 witness: four concrete heartbeat rounds produce the timeout error
carrying the last heartbeat payload, a heartbeat followed by a
data-bearing round produces the prices of the second response, and the
looser variant rejects with the sessionId TypeError on the same first
round. -/
theorem getAskBidPrice_retry_behaviour_witness :
    getAskBidPriceCore sampleSt "360"
        [(⟨true, 200, "OK", .obj [("sessionId", .str "s1")], []⟩,
          ⟨true, 200, "OK", .arr [.obj [("m", .str "h")]], []⟩),
         (⟨true, 200, "OK", .obj [("sessionId", .str "s2")], []⟩,
          ⟨true, 200, "OK", .arr [.obj [("m", .str "h")]], []⟩),
         (⟨true, 200, "OK", .obj [("sessionId", .str "s3")], []⟩,
          ⟨true, 200, "OK", .arr [.obj [("m", .str "h")]], []⟩),
         (⟨true, 200, "OK", .obj [("sessionId", .str "s4")], []⟩,
          ⟨true, 200, "OK", .arr [.obj [("m", .str "h")]], []⟩)] 0
      = .error (.timeout (.arr [.obj [("m", .str "h")]]))
    ∧ getAskBidPriceCore sampleSt "360"
        [(⟨true, 200, "OK", .obj [("sessionId", .str "s1")], []⟩,
          ⟨true, 200, "OK", .arr [.obj [("m", .str "h")]], []⟩),
         (⟨true, 200, "OK", .obj [("sessionId", .str "s2")], []⟩,
          ⟨true, 200, "OK", .arr [
            .obj [("m", .str "a_req"), ("v", .arr [.str "360.BidPrice", .num 101])],
            .obj [("m", .str "un"), ("v", .arr [.num 101, .num 25])]], []⟩)] 0
      = .ok [("bidPrice", .num 25)]
    ∧ (getAskBidPrice1 sampleSt "360"
        [(⟨true, 200, "OK", .obj [("sessionId", .str "s1")], []⟩,
          ⟨true, 200, "OK", .arr [.obj [("m", .str "h")]], []⟩)] 0).2
      = .error (.typeError "sessionId") :=
  ⟨(getAskBidPrice_retry_behaviour).1 sampleSt "360"
      ⟨true, 200, "OK", .obj [("sessionId", .str "s1")], []⟩
      ⟨true, 200, "OK", .arr [.obj [("m", .str "h")]], []⟩
      ⟨true, 200, "OK", .obj [("sessionId", .str "s2")], []⟩
      ⟨true, 200, "OK", .arr [.obj [("m", .str "h")]], []⟩
      ⟨true, 200, "OK", .obj [("sessionId", .str "s3")], []⟩
      ⟨true, 200, "OK", .arr [.obj [("m", .str "h")]], []⟩
      ⟨true, 200, "OK", .obj [("sessionId", .str "s4")], []⟩
      ⟨true, 200, "OK", .arr [.obj [("m", .str "h")]], []⟩
      (.obj [("sessionId", .str "s1")]) (.obj [("sessionId", .str "s2")])
      (.obj [("sessionId", .str "s3")]) (.obj [("sessionId", .str "s4")])
      (.str "s1") (.str "s2") (.str "s3") (.str "s4")
      [.obj [("m", .str "h")]] [.obj [("m", .str "h")]]
      [.obj [("m", .str "h")]] [.obj [("m", .str "h")]]
      rfl rfl rfl rfl rfl rfl rfl rfl rfl rfl rfl rfl rfl rfl rfl rfl,
   (getAskBidPrice_retry_behaviour).2.1 sampleSt "360"
      ⟨true, 200, "OK", .obj [("sessionId", .str "s1")], []⟩
      ⟨true, 200, "OK", .arr [.obj [("m", .str "h")]], []⟩
      ⟨true, 200, "OK", .obj [("sessionId", .str "s2")], []⟩
      ⟨true, 200, "OK", .arr [
        .obj [("m", .str "a_req"), ("v", .arr [.str "360.BidPrice", .num 101])],
        .obj [("m", .str "un"), ("v", .arr [.num 101, .num 25])]], []⟩
      (.obj [("sessionId", .str "s1")]) (.obj [("sessionId", .str "s2")])
      (.str "s1") (.str "s2")
      [.obj [("m", .str "h")]]
      [.obj [("m", .str "a_req"), ("v", .arr [.str "360.BidPrice", .num 101])],
       .obj [("m", .str "un"), ("v", .arr [.num 101, .num 25])]]
      [("bidPrice", .num 25)]
      rfl rfl rfl rfl rfl rfl rfl rfl rfl,
   (getAskBidPrice_retry_behaviour).2.2 sampleSt "360"
      ⟨true, 200, "OK", .obj [("sessionId", .str "s1")], []⟩
      ⟨true, 200, "OK", .arr [.obj [("m", .str "h")]], []⟩ [] 0⟩

/-- A non-ok response always makes the variant-0 status helper throw. -/
theorem checkSuccess_not_ok {res : HResp} (h : res.ok = false) :
    ∃ e, checkSuccess res = .error e := by
  unfold checkSuccess
  rw [h]
  simp only [Bool.false_eq_true, if_false]
  repeat' split
  all_goals exact ⟨_, rfl⟩

/-- A truthy cookie id is a non-empty cookie string. -/
theorem cookie_truthy {lr : HResp} (h : truthy (cookieIdOf lr) = true) :
    ∃ s, cookieIdOf lr = .str s ∧ s ≠ "" := by
  unfold cookieIdOf at h ⊢
  cases hga : getAssoc lr.cookies "JSESSIONID" with
  | none => rw [hga] at h; simp [truthy] at h
  | some v =>
      rw [hga] at h
      refine ⟨v, rfl, ?_⟩
      simpa [truthy] using h

/-- `updateConfig` (variant 0) never touches the session record. -/
theorem updateConfig0_session {st : St} {resp : HResp} :
    (updateConfig0 st resp).1.session = st.session := by
  unfold updateConfig0
  split
  · rfl
  · split
    · rfl
    · rfl

/-- `updateConfig` (variant 1) never touches the session record. -/
theorem updateConfig1_session {st : St} {resp : HResp} :
    (updateConfig1 st resp).1.session = st.session := by
  unfold updateConfig1
  split
  · rfl
  · rfl

/-- Inversion of a successful variant-0 `getClientInfo`: the session id
is preserved and the stored account is the `data.intAccount` of the
status-checked response body. -/
theorem getClientInfo0_inv {st : St} {resp : HResp} {st' : St} {d : JVal}
    (h : getClientInfo0 st resp = (st', .ok d)) :
    st'.session.id = st.session.id
    ∧ ∃ json data, checkSuccess resp = .ok json ∧ jsGet json "data" = .ok data
        ∧ jsGet data "intAccount" = .ok st'.session.account := by
  unfold getClientInfo0 at h
  split at h
  · cases h
  · rename_i json hjson
    split at h
    · cases h
    · rename_i data hdata
      split at h
      · cases h
      · rename_i acct hacct
        split at h
        · cases h
        · rename_i uid huid
          have h1 := congrArg Prod.fst h
          simp only at h1
          subst h1
          exact ⟨rfl, json, data, hjson, hdata, hacct⟩

/-- Inversion of a successful variant-1 `getClientInfo`: the session id
is preserved and the stored account is the `data.intAccount` of the raw
response body. -/
theorem getClientInfo1_inv {st : St} {resp : HResp} {st' : St} {d : JVal}
    (h : getClientInfo1 st resp = (st', .ok d)) :
    st'.session.id = st.session.id
    ∧ ∃ data, jsGet resp.body "data" = .ok data
        ∧ jsGet data "intAccount" = .ok st'.session.account := by
  unfold getClientInfo1 at h
  split at h
  · cases h
  · rename_i data hdata
    split at h
    · cases h
    · rename_i acct hacct
      split at h
      · cases h
      · rename_i uid huid
        have h1 := congrArg Prod.fst h
        simp only at h1
        subst h1
        exact ⟨rfl, data, hdata, hacct⟩

/-- C5 counterexample: in the looser-validation variant, a login response
with a non-success status (403) that still carries a JSESSIONID cookie is
not rejected — with well-shaped config and client-info responses the
login resolves to a populated session. -/
theorem login1_error_status_with_cookie_resolves :
    (sendLoginRequest1 sampleSt
        ⟨false, 403, "Forbidden", .obj [], [("JSESSIONID", "abc")]⟩
        sampleConfigResp sampleClientResp).2
      = .ok ⟨.str "abc", .num 123, .str "tok",
             .obj [("intAccount", .num 123), ("id", .str "tok")], .null⟩ := rfl

/-- C5 (amended): in the validated variant, login fails whenever the
vendor reports a non-success status (with the text of the error payload when
one is present) or returns no session cookie, and every successful login
yields a session whose id is a non-empty string and whose account is the
`data.intAccount` the client-info response reported.  In the
looser-validation variant, a missing or empty session cookie fails the
login, and successful logins satisfy the same postcondition — but a
non-success status with a cookie present is not rejected (see the
counterexample). -/
theorem login_validation_behaviour :
    (∀ (st : St) (lr c k : HResp), lr.ok = false →
        isErr (sendLoginRequest0 st lr c k).2 = true)
    ∧ (∀ (st : St) (lr c k : HResp), truthy (cookieIdOf lr) = false →
        isErr (sendLoginRequest0 st lr c k).2 = true)
    ∧ (∀ (st : St) (lr c k : HResp) (sess : Session),
        (sendLoginRequest0 st lr c k).2 = .ok sess →
        (∃ s, sess.id = .str s ∧ s ≠ "")
        ∧ ∃ json data, checkSuccess k = .ok json ∧ jsGet json "data" = .ok data
            ∧ jsGet data "intAccount" = .ok sess.account)
    ∧ (∀ (st : St) (lr c k : HResp), truthy (cookieIdOf lr) = false →
        (sendLoginRequest1 st lr c k).2 = .error .loginNok)
    ∧ (∀ (st : St) (lr c k : HResp) (sess : Session),
        (sendLoginRequest1 st lr c k).2 = .ok sess →
        (∃ s, sess.id = .str s ∧ s ≠ "")
        ∧ ∃ data, jsGet k.body "data" = .ok data
            ∧ jsGet data "intAccount" = .ok sess.account) := by
  refine ⟨?_, ?_, ?_, ?_, ?_⟩
  · intro st lr c k h
    obtain ⟨e, he⟩ := checkSuccess_not_ok h
    simp [sendLoginRequest0, he, isErr]
  · intro st lr c k h
    cases hcs : checkSuccess lr with
    | error e => simp [sendLoginRequest0, hcs, isErr]
    | ok j => simp [sendLoginRequest0, hcs, h, isErr]
  · intro st lr c k sess h
    simp only [sendLoginRequest0] at h
    split at h
    · simp at h
    · split at h
      · rename_i hsid
        split at h
        · simp at h
        · rename_i st2 val hcfg
          split at h
          · simp at h
          · rename_i st3 d hcli
            simp only at h
            cases h
            obtain ⟨hid, json, data, hk, hd, hacct⟩ := getClientInfo0_inv hcli
            refine ⟨?_, json, data, hk, hd, hacct⟩
            obtain ⟨s, hs, hne⟩ := cookie_truthy hsid
            refine ⟨s, ?_, hne⟩
            rw [hid]
            have h2 := congrArg (fun p => p.1.session.id) hcfg
            simp only at h2
            rw [updateConfig0_session] at h2
            rw [← h2]
            exact hs
      · simp at h
  · intro st lr c k h
    simp [sendLoginRequest1, h]
  · intro st lr c k sess h
    simp only [sendLoginRequest1] at h
    split at h
    · rename_i hsid
      split at h
      · simp at h
      · rename_i st2 val hcfg
        split at h
        · simp at h
        · rename_i st3 d hcli
          simp only at h
          cases h
          obtain ⟨hid, data, hd, hacct⟩ := getClientInfo1_inv hcli
          refine ⟨?_, data, hd, hacct⟩
          obtain ⟨s, hs, hne⟩ := cookie_truthy hsid
          refine ⟨s, ?_, hne⟩
          rw [hid]
          have h2 := congrArg (fun p => p.1.session.id) hcfg
          simp only at h2
          rw [updateConfig1_session] at h2
          rw [← h2]
          exact hs
    · simp at h

/-- C5 witness: a 403 login response fails in the validated variant; a
cookie-less login fails in the looser variant; and a successful validated
login yields the non-empty session id "abc" and the vendor-reported
account 123. -/
theorem login_validation_behaviour_witness :
    isErr (sendLoginRequest0 sampleSt ⟨false, 403, "Forbidden", .obj [], []⟩
        sampleConfigResp sampleClientResp).2 = true
    ∧ (sendLoginRequest1 sampleSt ⟨true, 200, "OK", .null, []⟩
        sampleConfigResp sampleClientResp).2 = .error .loginNok
    ∧ ((∃ s, (Session.mk (.str "abc") (.num 123) (.str "tok") .null
          (.obj [("intAccount", .num 123), ("id", .str "tok")])).id = .str s ∧ s ≠ "")
       ∧ ∃ json data, checkSuccess sampleClientResp = .ok json
           ∧ jsGet json "data" = .ok data
           ∧ jsGet data "intAccount"
               = .ok (Session.mk (.str "abc") (.num 123) (.str "tok") .null
                   (.obj [("intAccount", .num 123), ("id", .str "tok")])).account) :=
  ⟨login_validation_behaviour.1 sampleSt ⟨false, 403, "Forbidden", .obj [], []⟩
      sampleConfigResp sampleClientResp rfl,
   login_validation_behaviour.2.2.2.1 sampleSt ⟨true, 200, "OK", .null, []⟩
      sampleConfigResp sampleClientResp rfl,
   login_validation_behaviour.2.2.1 sampleSt
      ⟨true, 200, "OK", .obj [], [("JSESSIONID", "abc")]⟩
      sampleConfigResp sampleClientResp
      (Session.mk (.str "abc") (.num 123) (.str "tok") .null
        (.obj [("intAccount", .num 123), ("id", .str "tok")])) rfl⟩

end Degiro
